import Mathlib

/-!
Verification of the Starry-sky particle simulation core.

Shallow embedding of the JavaScript sources:
* `Star`          — src/unnamed/part_002 (`Star` class), rationals for JS numbers,
                    with the `Math.random()` draws passed in explicitly.
* `Camera`        — src/unnamed/part_001 (`Camera` class), reals (trigonometry).
* `StarField`     — src/unnamed/part_003 (`StarField` class), the state the
                    frozen claims touch: star collection, counts, speed,
                    renderer effect toggles, frame-skip and optimization clocks.
* `PerformanceMonitor` — src/js/app.js (`PerformanceMonitor` class).
* `InputHandler`  — src/js/inputhandler.js (`InputHandler` class), reals.
* `Renderer`      — src/js/renderer.js (`Renderer` class): color schemes and
                    the color-transition record.
-/

namespace StarrySky

/-! ## Star (src/unnamed/part_002) -/

/-- One star: `x`, `y`, `z` position, previous position for trails, and the
per-star speed multiplier.  Mirrors the fields of the JS `Star` class. -/
structure Star where
  x : ℚ
  y : ℚ
  z : ℚ
  prevX : ℚ
  prevY : ℚ
  speed : ℚ
  deriving DecidableEq

/-- `this.minDistance = 1` in the `Star` constructor (never mutated). -/
def Star.minDistance : ℚ := 1

/-- `this.maxDistance = 1000` in the `Star` constructor (never mutated). -/
def Star.maxDistance : ℚ := 1000

/-- The `Math.random()` draws consumed by one `Star.reset()` call
(or one `new Star` / `createRandomStar()` call): each in `[0, 1)`. -/
structure RandDraws where
  r1 : ℚ
  r2 : ℚ
  r3 : ℚ
  deriving DecidableEq

/-- `Star.reset()`: `z := maxDistance`; fresh `x`, `y` from
`(Math.random() - 0.5) * 500 * 2`; previous position set to the new
position; fresh `speed` from `Math.random() * 0.5 + 0.5`. -/
def Star.reset (_s : Star) (r : RandDraws) : Star :=
  let newX := (r.r1 - 1/2) * 500 * 2
  let newY := (r.r2 - 1/2) * 500 * 2
  { x := newX, y := newY, z := Star.maxDistance,
    prevX := newX, prevY := newY,
    speed := r.r3 * (1/2) + 1/2 }

/-- `Star.update(speed, deltaTime)`: stash previous position, decrement
`z` by `speed * this.speed * deltaTime * 60`, and reset (consuming the
random draws `r`) when the result is `≤ minDistance`. -/
def Star.update (s : Star) (speedScale deltaTime : ℚ) (r : RandDraws) : Star :=
  let s1 : Star :=
    { s with prevX := s.x, prevY := s.y,
             z := s.z - speedScale * s.speed * deltaTime * 60 }
  if s1.z ≤ Star.minDistance then s1.reset r else s1

/-- `Star.getBrightness()`: `clamp01 (1 - (z - min)/(max - min))`. -/
def Star.getBrightness (s : Star) : ℚ :=
  max 0 (min 1 (1 - (s.z - Star.minDistance) / (Star.maxDistance - Star.minDistance)))

/-- `Star.isVisible()`: `minDistance ≤ z ≤ maxDistance`. -/
def Star.isVisible (s : Star) : Bool :=
  Star.minDistance ≤ s.z ∧ s.z ≤ Star.maxDistance

/-- `new Star(x, y, z)`: previous position starts at the position and the
speed multiplier is drawn from `Math.random() * 0.5 + 0.5`. -/
def mkStar (x y z : ℚ) (r : RandDraws) : Star :=
  { x := x, y := y, z := z, prevX := x, prevY := y, speed := r.r3 * (1/2) + 1/2 }

/-- `StarField.createRandomStar()`: random `x, y` in `[-500, 500)`,
`z = Math.random() * 1000`, then `new Star(x, y, z)`. -/
def createRandomStar (r : RandDraws) : Star :=
  mkStar ((r.r1 - 1/2) * 500 * 2) ((r.r2 - 1/2) * 500 * 2) (r.r3 * 1000) r

/-! ## Camera (src/unnamed/part_001) -/

/-- Camera state: field of view, aspect, clip planes, rotation angles,
canvas size, and the stored `focalLength`. -/
structure Camera where
  fov : ℝ
  aspect : ℝ
  near : ℝ
  far : ℝ
  rotationX : ℝ
  rotationY : ℝ
  canvasWidth : ℝ
  canvasHeight : ℝ
  focalLength : ℝ

/-- The `Camera` constructor: rotation zero, 800×600 canvas, and
`focalLength = canvasHeight / (2 * tan((fov * π / 180) / 2))`. -/
noncomputable def mkCamera (fov aspect near far : ℝ) : Camera :=
  { fov := fov, aspect := aspect, near := near, far := far,
    rotationX := 0, rotationY := 0,
    canvasWidth := 800, canvasHeight := 600,
    focalLength := 600 / (2 * Real.tan ((fov * Real.pi / 180) / 2)) }

/-- `Camera.applyRotation(x, y, z)`: Y-axis rotation by `rotationY` on
`(x, z)`, then X-axis rotation by `rotationX` on `(y, rotatedZ)`.
Returns `(rotatedX, finalY, finalZ)`. -/
noncomputable def Camera.applyRotation (c : Camera) (x y z : ℝ) : ℝ × ℝ × ℝ :=
  let cosY := Real.cos c.rotationY
  let sinY := Real.sin c.rotationY
  let rotatedX := x * cosY - z * sinY
  let rotatedZ := x * sinY + z * cosY
  let cosX := Real.cos c.rotationX
  let sinX := Real.sin c.rotationX
  let finalY := y * cosX - rotatedZ * sinX
  let finalZ := y * sinX + rotatedZ * cosX
  (rotatedX, finalY, finalZ)

/-- The screen-space result of `project3DTo2D`: screen `x`, `y` and the
rotated depth `z` kept for depth sorting. -/
structure ScreenPoint where
  x : ℝ
  y : ℝ
  z : ℝ

/-- `Camera.project3DTo2D(x, y, z)`: `null` when `z ≤ 0`; apply the
rotation; `null` again when the rotated depth is `≤ 0`; otherwise pinhole
projection shifted to canvas-centered screen coordinates. -/
noncomputable def Camera.project3DTo2D (c : Camera) (x y z : ℝ) : Option ScreenPoint :=
  if z ≤ 0 then none
  else
    let rotated := c.applyRotation x y z
    if rotated.2.2 ≤ 0 then none
    else
      let projectedX := rotated.1 * c.focalLength / rotated.2.2
      let projectedY := rotated.2.1 * c.focalLength / rotated.2.2
      some { x := projectedX + c.canvasWidth / 2,
             y := projectedY + c.canvasHeight / 2,
             z := rotated.2.2 }

/-! ## PerformanceMonitor (src/js/app.js) -/

/-- The performance-monitor state the claims touch: frame counter, last
snapshot `fps`, snapshot clock, the rolling FPS history, and frame-time
tracking.  `maxFpsHistory = 60` and `lowFpsThreshold = 30` are the
constructor constants. -/
structure PerformanceMonitor where
  frameCount : ℕ
  fps : ℕ
  lastFpsUpdate : ℚ
  fpsHistory : List ℕ
  lastFrameTime : ℚ
  frameTime : ℚ
  deriving DecidableEq

/-- The `PerformanceMonitor` constructor: everything zeroed, empty history. -/
def mkPerformanceMonitor : PerformanceMonitor :=
  { frameCount := 0, fps := 0, lastFpsUpdate := 0, fpsHistory := [],
    lastFrameTime := 0, frameTime := 0 }

/-- `PerformanceMonitor.getAverageFPS()`: the snapshot `fps` when the
history is empty, else `Math.round` of the history mean. -/
def PerformanceMonitor.getAverageFPS (pm : PerformanceMonitor) : ℤ :=
  if pm.fpsHistory = [] then (pm.fps : ℤ)
  else ⌊((pm.fpsHistory.sum : ℚ) / pm.fpsHistory.length + 1/2 : ℚ)⌋

/-- The threshold notification produced by `checkPerformanceThresholds`:
a low- or good-performance callback carrying `{fps, frameTime}`, or none. -/
inductive PerfEvent where
  | low (fps frameTime : ℚ)
  | good (fps frameTime : ℚ)
  | none
  deriving DecidableEq

/-- `PerformanceMonitor.checkPerformanceThresholds()`: fire the low
callback when the average FPS is `< 30`, the good callback when it is
`> 40` (`lowFpsThreshold + 10`). -/
def PerformanceMonitor.checkPerformanceThresholds (pm : PerformanceMonitor) : PerfEvent :=
  let avgFps := pm.getAverageFPS
  if avgFps < 30 then .low (avgFps : ℚ) pm.frameTime
  else if avgFps > 30 + 10 then .good (avgFps : ℚ) pm.frameTime
  else .none

/-- `PerformanceMonitor.update(currentTime)`: track frame time, bump the
frame counter, and once a second snapshot `fps`, push it into the history
and drop the oldest entry (`shift()`) when the history exceeds 60. -/
def PerformanceMonitor.update (pm : PerformanceMonitor) (currentTime : ℚ) : PerformanceMonitor :=
  let pm1 := if pm.lastFrameTime > 0
    then { pm with frameTime := currentTime - pm.lastFrameTime } else pm
  let pm2 := { pm1 with lastFrameTime := currentTime, frameCount := pm1.frameCount + 1 }
  if currentTime - pm2.lastFpsUpdate ≥ 1000 then
    let newFps := pm2.frameCount
    let pushed := pm2.fpsHistory ++ [newFps]
    let hist := if pushed.length > 60 then pushed.tail else pushed
    { pm2 with fps := newFps, frameCount := 0, lastFpsUpdate := currentTime,
               fpsHistory := hist }
  else pm2

/-! ## StarField (src/unnamed/part_003)

The `StarField` state relevant to the claims.  The renderer effect
toggles (`enableGlow`, `enableTrails`, both `true` in the `Renderer`
constructor's config) are reached through `this.renderer.setGlowEnabled` /
`setTrailsEnabled`, so they live here as the composed system's state.
`minStarCount = 100` and `recoveryDelay = 5000` come from the
`performanceOptimizations` literal; `skipFrames = 0` from
`renderingOptimizations`. -/

/-- StarField state touched by the claims. -/
structure StarField where
  stars : List Star
  starCount : ℤ
  originalStarCount : ℤ
  speed : ℚ
  enableGlow : Bool
  enableTrails : Bool
  skipFrames : ℤ
  frameSkipCounter : ℤ
  lastOptimization : ℚ
  lastRecovery : ℚ
  recoveryDelay : ℚ
  minStarCount : ℤ

/-- The `StarField` constructor with `initialize()`: the requested
`starCount` is stored unclamped (also as `originalStarCount`) and the
loop `for (i = 0; i < starCount; i++) stars.push(createRandomStar())`
builds the collection.  `ρ` supplies the random draws per created star. -/
def mkStarField (starCount : ℤ) (ρ : ℕ → RandDraws) : StarField :=
  { stars := (List.range starCount.toNat).map (fun i => createRandomStar (ρ i)),
    starCount := starCount,
    originalStarCount := starCount,
    speed := 1,
    enableGlow := true,
    enableTrails := true,
    skipFrames := 0,
    frameSkipCounter := 0,
    lastOptimization := 0,
    lastRecovery := 0,
    recoveryDelay := 5000,
    minStarCount := 100 }

/-- `StarField.getStarCount()`. -/
def StarField.getStarCount (sf : StarField) : ℤ := sf.starCount

/-- `StarField.setStarCount(count)`: clamp to `[1, 5000]`
(`Math.floor` is the identity on the integer inputs the claims range
over); no-op when unchanged; append `createRandomStar()` results when
growing, `splice(newCount)` (truncate) when shrinking. -/
def StarField.setStarCount (sf : StarField) (count : ℤ) (ρ : ℕ → RandDraws) : StarField :=
  let newCount := max 1 (min 5000 count)
  if newCount = sf.starCount then sf
  else
    let oldCount := sf.starCount
    if newCount > oldCount then
      { sf with starCount := newCount,
                stars := sf.stars ++
                  (List.range (newCount - oldCount).toNat).map
                    (fun i => createRandomStar (ρ i)) }
    else
      { sf with starCount := newCount, stars := sf.stars.take newCount.toNat }

/-- `StarField.setSpeed(speed)`: clamp to `[0.1, 5.0]` (numeric inputs). -/
def StarField.setSpeed (sf : StarField) (speed : ℚ) : StarField :=
  { sf with speed := max (1/10) (min 5 speed) }

/-- `StarField.handleLowPerformance(data)`: rate-limited to once per
2000 ms; when the current count exceeds `minStarCount`, shrink it by
`max(Math.floor(count * 0.25), 1)` floored at `minStarCount` via
`setStarCount`; when `data.fps < 20`, also disable glow and trails and
set `skipFrames = 1`; finally stamp `lastOptimization`. -/
def StarField.handleLowPerformance (sf : StarField) (fps : ℚ) (now : ℚ)
    (ρ : ℕ → RandDraws) : StarField :=
  if now - sf.lastOptimization < 2000 then sf
  else
    let sf1 :=
      if sf.getStarCount > sf.minStarCount then
        let reductionAmount := max ⌊(sf.getStarCount : ℚ) * (1/4)⌋ 1
        sf.setStarCount (max sf.minStarCount (sf.getStarCount - reductionAmount)) ρ
      else sf
    let sf2 :=
      if fps < 20 then
        { sf1 with enableGlow := false, enableTrails := false, skipFrames := 1 }
      else sf1
    { sf2 with lastOptimization := now }

/-- `StarField.handleGoodPerformance(data)`: rate-limited by
`recoveryDelay`; when current count is below the original and
`data.fps > 50`, grow by `min(Math.floor(original * 0.1), gap)` via
`setStarCount` (when positive) and re-enable glow/trails and clear
frame-skipping when glow was off; finally stamp `lastRecovery`. -/
def StarField.handleGoodPerformance (sf : StarField) (fps : ℚ) (now : ℚ)
    (ρ : ℕ → RandDraws) : StarField :=
  if now - sf.lastRecovery < sf.recoveryDelay then sf
  else
    let sf1 :=
      if sf.getStarCount < sf.originalStarCount ∧ fps > 50 then
        let recoveryAmount :=
          min ⌊(sf.originalStarCount : ℚ) * (1/10)⌋
            (sf.originalStarCount - sf.getStarCount)
        let sf' := if recoveryAmount > 0
          then sf.setStarCount (sf.getStarCount + recoveryAmount) ρ
          else sf
        if sf'.enableGlow = false then
          { sf' with enableGlow := true, enableTrails := true, skipFrames := 0 }
        else sf'
      else sf
    { sf1 with lastRecovery := now }

/-! ## InputHandler (src/js/inputhandler.js) -/

/-- The input-handler state: configuration, current and target rotation,
and the mouse-tracking state. -/
structure InputHandler where
  sensitivity : ℝ
  smoothing : ℝ
  maxRotation : ℝ
  invertY : Bool
  currentRotationX : ℝ
  currentRotationY : ℝ
  targetRotationX : ℝ
  targetRotationY : ℝ
  isMouseDown : Bool
  lastMouseX : ℝ
  lastMouseY : ℝ
  mouseX : ℝ
  mouseY : ℝ

/-- The `InputHandler` constructor: rotation state and mouse positions
start at zero, the mouse button up. -/
def mkInputHandler (sensitivity smoothing maxRotation : ℝ) (invertY : Bool) :
    InputHandler :=
  { sensitivity := sensitivity, smoothing := smoothing,
    maxRotation := maxRotation, invertY := invertY,
    currentRotationX := 0, currentRotationY := 0,
    targetRotationX := 0, targetRotationY := 0,
    isMouseDown := false,
    lastMouseX := 0, lastMouseY := 0, mouseX := 0, mouseY := 0 }

/-- The loop `while (targetRotationY > Math.PI) targetRotationY -= 2 * Math.PI`
from `applyRotationBounds`. -/
noncomputable def wrapHigh (y : ℝ) : ℝ :=
  if y > Real.pi then wrapHigh (y - 2 * Real.pi) else y
termination_by Nat.ceil ((y - Real.pi) / (2 * Real.pi))
decreasing_by
  have hpi : (0:ℝ) < Real.pi := Real.pi_pos
  have harg : (y - 2 * Real.pi - Real.pi) / (2 * Real.pi)
      = (y - Real.pi) / (2 * Real.pi) - 1 := by
    field_simp
    ring
  rw [harg]
  set a : ℝ := (y - Real.pi) / (2 * Real.pi)
  have hapos : 0 < a := by
    apply div_pos <;> linarith
  have h1 : 1 ≤ Nat.ceil a := Nat.ceil_pos.mpr hapos
  have h2 : Nat.ceil (a - 1) ≤ Nat.ceil a - 1 := by
    apply Nat.ceil_le.mpr
    push_cast [Nat.cast_sub h1]
    linarith [Nat.le_ceil a]
  exact lt_of_le_of_lt h2 (Nat.sub_lt (by omega) (by omega))

/-- The loop `while (targetRotationY < -Math.PI) targetRotationY += 2 * Math.PI`
from `applyRotationBounds`. -/
noncomputable def wrapLow (y : ℝ) : ℝ :=
  if y < -Real.pi then wrapLow (y + 2 * Real.pi) else y
termination_by Nat.ceil ((-Real.pi - y) / (2 * Real.pi))
decreasing_by
  have hpi : (0:ℝ) < Real.pi := Real.pi_pos
  have harg : (-Real.pi - (y + 2 * Real.pi)) / (2 * Real.pi)
      = (-Real.pi - y) / (2 * Real.pi) - 1 := by
    field_simp
    ring
  rw [harg]
  set a : ℝ := (-Real.pi - y) / (2 * Real.pi)
  have hapos : 0 < a := by
    apply div_pos <;> linarith
  have h1 : 1 ≤ Nat.ceil a := Nat.ceil_pos.mpr hapos
  have h2 : Nat.ceil (a - 1) ≤ Nat.ceil a - 1 := by
    apply Nat.ceil_le.mpr
    push_cast [Nat.cast_sub h1]
    linarith [Nat.le_ceil a]
  exact lt_of_le_of_lt h2 (Nat.sub_lt (by omega) (by omega))

/-- `InputHandler.applyRotationBounds()`: clamp the vertical target to
`±maxRotation`; wrap the horizontal target by the two `while` loops. -/
noncomputable def InputHandler.applyRotationBounds (ih : InputHandler) : InputHandler :=
  { ih with
      targetRotationX := max (-ih.maxRotation) (min ih.maxRotation ih.targetRotationX),
      targetRotationY := wrapLow (wrapHigh ih.targetRotationY) }

/-- `InputHandler.handleMouseMove(event)` with the event's canvas-relative
position `(mx, my)`: when the button is down, accumulate the
sensitivity-scaled deltas into the rotation targets and apply the bounds;
always refresh the last-mouse position. -/
noncomputable def InputHandler.handleMouseMove (ih : InputHandler) (mx my : ℝ) :
    InputHandler :=
  let ih1 := { ih with mouseX := mx, mouseY := my }
  let ih2 :=
    if ih1.isMouseDown then
      let deltaX := ih1.mouseX - ih1.lastMouseX
      let deltaY := ih1.mouseY - ih1.lastMouseY
      let rotationDeltaY := deltaX * ih1.sensitivity
      let rotationDeltaX := deltaY * ih1.sensitivity * (if ih1.invertY then -1 else 1)
      InputHandler.applyRotationBounds
        { ih1 with
            targetRotationY := ih1.targetRotationY + rotationDeltaY,
            targetRotationX := ih1.targetRotationX + rotationDeltaX }
    else ih1
  { ih2 with lastMouseX := ih2.mouseX, lastMouseY := ih2.mouseY }

/-- A pointer event fed to the handler: a move to a canvas position, or a
button transition (`handleMouseDown` / `handleMouseUp`). -/
inductive MouseEvt where
  | move (mx my : ℝ)
  | down
  | up

/-- Dispatch one event to the handler (`handleMouseDown` sets
`isMouseDown := true`, `handleMouseUp` clears it). -/
noncomputable def InputHandler.step (ih : InputHandler) : MouseEvt → InputHandler
  | .move mx my => ih.handleMouseMove mx my
  | .down => { ih with isMouseDown := true }
  | .up => { ih with isMouseDown := false }

/-- Process a sequence of pointer events. -/
noncomputable def InputHandler.processEvents (ih : InputHandler)
    (evts : List MouseEvt) : InputHandler :=
  evts.foldl InputHandler.step ih

/-! ## Renderer (src/js/renderer.js): color schemes and transitions -/

/-- An RGB color; every renderer color path produces integer channels
(static palette constants, `Math.round` in `hslToRgb` and `blendColors`,
`Math.floor` in `applyBrightnessAndContrast`). -/
structure Color where
  r : ℤ
  g : ℤ
  b : ℤ
  deriving DecidableEq

/-- The six keys of `this.colorSchemes`. -/
inductive SchemeName where
  | white
  | blueWhite
  | warm
  | cool
  | rainbow
  | nebula
  deriving DecidableEq

/-- `Math.round`: floor of `x + 1/2`. -/
noncomputable def jsRound (x : ℝ) : ℤ := ⌊x + 1/2⌋

/-- JavaScript `%` (remainder truncated toward zero). -/
noncomputable def jsMod (a n : ℝ) : ℝ :=
  a - n * (if 0 ≤ a / n then (⌊a / n⌋ : ℝ) else (⌈a / n⌉ : ℝ))

/-- The inner `hue2rgb` helper of `hslToRgb`. -/
noncomputable def hue2rgb (p q t : ℝ) : ℝ :=
  let t1 := if t < 0 then t + 1 else t
  let t2 := if t1 > 1 then t1 - 1 else t1
  if t2 < 1/6 then p + (q - p) * 6 * t2
  else if t2 < 1/2 then q
  else if t2 < 2/3 then p + (q - p) * (2/3 - t2) * 6
  else p

/-- `Renderer.hslToRgb(h, s, l)`. -/
noncomputable def hslToRgb (h s l : ℝ) : Color :=
  let h1 := h / 360
  let s1 := s / 100
  let l1 := l / 100
  let q := if l1 < 1/2 then l1 * (1 + s1) else l1 + s1 - l1 * s1
  let p := 2 * l1 - q
  { r := jsRound (hue2rgb p q (h1 + 1/3) * 255),
    g := jsRound (hue2rgb p q h1 * 255),
    b := jsRound (hue2rgb p q (h1 - 1/3) * 255) }

/-- `Renderer.getRainbowColor(star, currentTime)`. -/
noncomputable def getRainbowColor (star : Star) (t : ℝ) : Color :=
  let hue := jsMod (((star.x : ℝ) + (star.y : ℝ)) * (1/100) + t * (1/1000)) 360
  hslToRgb hue 70 80

/-- `Renderer.getNebulaColor(star, currentTime)`. -/
noncomputable def getNebulaColor (star : Star) (t : ℝ) : Color :=
  let baseHue : ℝ := 270
  let hueVariation :=
    Real.sin (((star.x : ℝ) + (star.y : ℝ)) * (5/1000) + t * (5/10000)) * 60
  let hue := jsMod (baseHue + hueVariation) 360
  let saturation := 60 + Real.sin (((star.x : ℝ) - (star.y : ℝ)) * (3/1000)) * 20
  let lightness := 60 + Real.sin ((star.z : ℝ) * (1/100) + t * (3/10000)) * 15
  hslToRgb hue saturation lightness

/-- `Renderer.easeInOutCubic(t)`. -/
noncomputable def easeInOutCubic (t : ℝ) : ℝ :=
  if t < 1/2 then 4 * t ^ 3 else 1 - (-2 * t + 2) ^ 3 / 2

/-- `Renderer.blendColors(color1, color2, progress)`. -/
noncomputable def blendColors (c1 c2 : Color) (progress : ℝ) : Color :=
  let easedProgress := easeInOutCubic progress
  { r := jsRound ((c1.r : ℝ) + ((c2.r : ℝ) - (c1.r : ℝ)) * easedProgress),
    g := jsRound ((c1.g : ℝ) + ((c2.g : ℝ) - (c1.g : ℝ)) * easedProgress),
    b := jsRound ((c1.b : ℝ) + ((c2.b : ℝ) - (c1.b : ℝ)) * easedProgress) }

/-- `Renderer.applyBrightnessAndContrast(baseColor, brightness)`. -/
noncomputable def applyBrightnessAndContrast (c : Color) (brightness : ℝ) : Color :=
  let r := max 30 ⌊(c.r : ℝ) * brightness⌋
  let g := max 30 ⌊(c.g : ℝ) * brightness⌋
  let b := max 30 ⌊(c.b : ℝ) * brightness⌋
  if brightness < 3/10 then
    { r := min 255 ⌊(r : ℝ) * (12/10)⌋,
      g := min 255 ⌊(g : ℝ) * (12/10)⌋,
      b := min 255 ⌊(b : ℝ) * (12/10)⌋ }
  else { r := r, g := g, b := b }

/-- The `this.colorTransition` record. -/
structure ColorTransition where
  isTransitioning : Bool
  startTime : ℝ
  duration : ℝ
  fromScheme : Option SchemeName
  toScheme : Option SchemeName
  progress : ℝ

/-- The renderer state the color claims touch: active scheme and the
transition record. -/
structure Renderer where
  colorScheme : SchemeName
  colorTransition : ColorTransition

/-- The `Renderer` constructor: scheme `white`, no transition,
`duration = 1000`. -/
def mkRenderer : Renderer :=
  { colorScheme := .white,
    colorTransition :=
      { isTransitioning := false, startTime := 0, duration := 1000,
        fromScheme := none, toScheme := none, progress := 0 } }

/-- `Renderer.getSchemeColor(schemeName, star, currentTime)`: dynamic
formula for `rainbow`/`nebula`, the palette constant otherwise (the
missing-key `|| white` fallback is taken for a `null` scheme name). -/
noncomputable def schemeColor (name : SchemeName) (star : Star) (t : ℝ) : Color :=
  match name with
  | .rainbow => getRainbowColor star t
  | .nebula => getNebulaColor star t
  | .white => { r := 255, g := 255, b := 255 }
  | .blueWhite => { r := 200, g := 220, b := 255 }
  | .warm => { r := 255, g := 220, b := 180 }
  | .cool => { r := 180, g := 200, b := 255 }

/-- `Renderer.updateColorTransition(currentTime)`: recompute
`progress = min(elapsed / duration, 1)` and clear the transition
(flag off, `fromScheme`/`toScheme` nulled) once progress reaches 1. -/
noncomputable def Renderer.updateColorTransition (r : Renderer) (t : ℝ) : Renderer :=
  if r.colorTransition.isTransitioning = false then r
  else
    let elapsed := t - r.colorTransition.startTime
    let progress := min (elapsed / r.colorTransition.duration) 1
    let ct := r.colorTransition
    if progress ≥ 1 then
      { r with colorTransition :=
          { ct with progress := progress, isTransitioning := false,
                    fromScheme := Option.none, toScheme := Option.none } }
    else
      { r with colorTransition := { ct with progress := progress } }

/-- `Renderer.getStarColor(star, brightness, currentTime)`: update the
transition, compute the active scheme's base color, cross-fade from the
old scheme while a transition is active, then apply brightness/contrast.
Returns the updated renderer state together with the color. -/
noncomputable def Renderer.getStarColor (r : Renderer) (star : Star)
    (brightness t : ℝ) : Renderer × Color :=
  let r1 := r.updateColorTransition t
  let baseColor := schemeColor r1.colorScheme star t
  let blended :=
    if r1.colorTransition.isTransitioning then
      blendColors
        (schemeColor (r1.colorTransition.fromScheme.getD .white) star t)
        baseColor r1.colorTransition.progress
    else baseColor
  (r1, applyBrightnessAndContrast blended brightness)

/-- `Renderer.setColorScheme(scheme, smooth)` at wall-clock `now`
(`performance.now()`): no-op on the current scheme; start a transition
only when `smooth` holds and none is active; always adopt the new scheme
immediately.  (Unknown scheme strings are rejected before this point and
cannot be represented in `SchemeName`.) -/
noncomputable def Renderer.setColorScheme (r : Renderer) (scheme : SchemeName)
    (smooth : Bool) (now : ℝ) : Renderer :=
  if scheme = r.colorScheme then r
  else
    let r1 :=
      if smooth ∧ r.colorTransition.isTransitioning = false then
        { r with colorTransition :=
            { isTransitioning := true, startTime := now,
              duration := r.colorTransition.duration,
              fromScheme := some r.colorScheme, toScheme := some scheme,
              progress := 0 } }
      else r
    { r1 with colorScheme := scheme }

/-! ## ConfigPanel validators and the NaN-carrying StarField setters

`src/unnamed/part_000` (`ConfigPanel`) and the raw JS-number behavior of
`StarField.setStarCount` / `setSpeed` (`src/unnamed/part_003`).  A JS
number is modelled as `Option ℚ`: `none` is `NaN`.  `Math.min`,
`Math.max` and `Math.floor` propagate `NaN`; every comparison with `NaN`
is false. -/

/-- `Math.min` on JS numbers (`NaN` absorbs). -/
def jsMin : Option ℚ → Option ℚ → Option ℚ
  | some a, some b => some (min a b)
  | _, _ => Option.none

/-- `Math.max` on JS numbers (`NaN` absorbs). -/
def jsMax : Option ℚ → Option ℚ → Option ℚ
  | some a, some b => some (max a b)
  | _, _ => Option.none

/-- `Math.floor` on JS numbers. -/
def jsFloor : Option ℚ → Option ℚ
  | some a => some (⌊a⌋ : ℚ)
  | Option.none => Option.none

/-- `ConfigPanel.validateStarCount(count)`: keep the currently stored
count on `NaN`, else clamp `Math.floor(count)` into `[100, 5000]`. -/
def validateStarCount (currentStarCount : ℚ) (count : Option ℚ) : ℚ :=
  match count with
  | Option.none => currentStarCount
  | some c => max 100 (min 5000 (⌊c⌋ : ℚ))

/-- `(x).toFixed(1)` then `parseFloat`: round to one decimal place,
ties away from the smaller value (ECMA picks the larger candidate). -/
def jsToFixed1 (x : ℚ) : ℚ := (⌊x * 10 + 1/2⌋ : ℚ) / 10

/-- `ConfigPanel.validateSpeed(speed)`: keep the currently stored speed
on `NaN`, else clamp the one-decimal rounding into `[0.1, 5.0]`. -/
def validateSpeed (currentSpeed : ℚ) (speed : Option ℚ) : ℚ :=
  match speed with
  | Option.none => currentSpeed
  | some s => max (1/10) (min 5 (jsToFixed1 s))

/-- `StarField.setSpeed(speed)` on a raw JS number:
`this.speed = Math.max(0.1, Math.min(5.0, speed))`, which stores `NaN`
when `speed` is `NaN`. -/
def starFieldSetSpeedJS (speed : Option ℚ) : Option ℚ :=
  jsMax (some (1/10)) (jsMin (some 5) speed)

/-- The `newCount` computation of `StarField.setStarCount(count)` on a
raw JS number: `Math.max(1, Math.min(5000, Math.floor(count)))`, which
is `NaN` when `count` is `NaN` (and `NaN === starCount` is false, so the
`NaN` is then stored and `splice(NaN)` empties the collection). -/
def starFieldSetStarCountNewCountJS (count : Option ℚ) : Option ℚ :=
  jsMax (some 1) (jsMin (some 5000) (jsFloor count))

/-! ## Theorems -/

/-- **C1** — Camera projection null-safety and exactness: `project3DTo2D`
returns `null` whenever `z ≤ 0`; returns `null` whenever the current
rotation carries the point's depth to a value `≤ 0`; and for
`rotationX = rotationY = 0` and `z > 0` it returns exactly
`screenX = x·focalLength/z + canvasWidth/2`,
`screenY = y·focalLength/z + canvasHeight/2`, with the rotated `z`
passed through as the depth. -/
theorem camera_projection_null_safety_and_exactness :
    (∀ (c : Camera) (x y z : ℝ), z ≤ 0 → c.project3DTo2D x y z = Option.none)
    ∧ (∀ (c : Camera) (x y z : ℝ), (c.applyRotation x y z).2.2 ≤ 0 →
        c.project3DTo2D x y z = Option.none)
    ∧ (∀ (c : Camera) (x y z : ℝ), c.rotationX = 0 → c.rotationY = 0 → 0 < z →
        c.project3DTo2D x y z =
          some { x := x * c.focalLength / z + c.canvasWidth / 2,
                 y := y * c.focalLength / z + c.canvasHeight / 2,
                 z := z }) := by
  refine ⟨?_, ?_, ?_⟩
  · intro c x y z hz
    simp [Camera.project3DTo2D, hz]
  · intro c x y z hrot
    by_cases hz : z ≤ 0
    · simp [Camera.project3DTo2D, hz]
    · simp [Camera.project3DTo2D, hz, hrot]
  · intro c x y z hX hY hz
    have h1 : c.applyRotation x y z = (x, y, z) := by
      simp [Camera.applyRotation, hX, hY]
    have hz' : ¬ z ≤ 0 := not_le.mpr hz
    simp [Camera.project3DTo2D, h1, hz']

/-- Witness for C1 on the default-constructed camera (and a copy rotated
by `π` about the vertical axis, which carries `(0, 0, 5)` behind the
lens): a point with `z = -3` projects to `null`, the rotated depth of
`(0, 0, 5)` is `≤ 0` so it projects to `null`, and `(8, 6, 2)` projects
exactly per the pinhole formula. -/
theorem camera_projection_witness :
    (mkCamera 75 (800/600) (1/10) 1000).project3DTo2D 1 2 (-3) = Option.none
    ∧ ({ mkCamera 75 (800/600) (1/10) 1000 with
          rotationY := Real.pi } : Camera).project3DTo2D 0 0 5 = Option.none
    ∧ (mkCamera 75 (800/600) (1/10) 1000).project3DTo2D 8 6 2 =
        some { x := 8 * (mkCamera 75 (800/600) (1/10) 1000).focalLength / 2
                      + (mkCamera 75 (800/600) (1/10) 1000).canvasWidth / 2,
               y := 6 * (mkCamera 75 (800/600) (1/10) 1000).focalLength / 2
                      + (mkCamera 75 (800/600) (1/10) 1000).canvasHeight / 2,
               z := 2 } := by
  refine ⟨?_, ?_, ?_⟩
  · exact camera_projection_null_safety_and_exactness.1 _ 1 2 (-3) (by norm_num)
  · refine camera_projection_null_safety_and_exactness.2.1 _ 0 0 5 ?_
    simp [Camera.applyRotation, mkCamera, Real.cos_pi, Real.sin_pi]
  · exact camera_projection_null_safety_and_exactness.2.2 _ 8 6 2 rfl rfl
      (by norm_num)

/-- **C2 (amended)** — Particle reset invariant, for nonnegative
`speedScale`, `deltaTime` and per-star speed multiplier (their actual
ranges: `[0.1, 5]`, elapsed seconds, `[0.5, 1]`): for a live particle,
after one `update`, if the decremented `z` fell to `≤ minDistance` the
star was reset (`z = maxDistance`, previous position equal to the new
position), and in all such cases `minDistance < z ≤ maxDistance`.  (The
claim's unrestricted quantification over `deltaTime` fails: a negative
`deltaTime` pushes `z` above `maxDistance`, see
`star_update_escapes_above_max`.) -/
theorem star_update_reset_invariant (s : Star) (speedScale deltaTime : ℚ)
    (r : RandDraws)
    (hz1 : Star.minDistance ≤ s.z) (hz2 : s.z ≤ Star.maxDistance)
    (hsp : 0 ≤ speedScale) (hdt : 0 ≤ deltaTime) (hs : 0 ≤ s.speed) :
    (s.z - speedScale * s.speed * deltaTime * 60 ≤ Star.minDistance →
      (s.update speedScale deltaTime r).z = Star.maxDistance
      ∧ (s.update speedScale deltaTime r).prevX = (s.update speedScale deltaTime r).x
      ∧ (s.update speedScale deltaTime r).prevY = (s.update speedScale deltaTime r).y)
    ∧ Star.minDistance < (s.update speedScale deltaTime r).z
    ∧ (s.update speedScale deltaTime r).z ≤ Star.maxDistance := by
  have hd0 : 0 ≤ speedScale * s.speed * deltaTime * 60 := by positivity
  by_cases h : s.z - speedScale * s.speed * deltaTime * 60 ≤ Star.minDistance
  · constructor
    · intro _
      simp [Star.update, h, Star.reset]
    · simp only [Star.update, h, if_pos, Star.reset]
      norm_num [Star.minDistance, Star.maxDistance]
  · constructor
    · intro hcontra
      exact absurd hcontra h
    · simp only [Star.update, h, if_neg, ite_false]
      rw [Star.minDistance] at h ⊢
      rw [Star.maxDistance] at hz2 ⊢
      constructor
      · linarith [not_le.mp h]
      · linarith

/-- Witness for C2 on a live star at `z = 500` with speed multiplier
`3/4`, advanced by `speedScale = 1` for one 60 Hz frame. -/
theorem star_update_reset_invariant_witness :
    Star.minDistance < ((Star.mk 3 4 500 3 4 (3/4)).update 1 (1/60) ⟨0, 0, 0⟩).z
    ∧ ((Star.mk 3 4 500 3 4 (3/4)).update 1 (1/60) ⟨0, 0, 0⟩).z
        ≤ Star.maxDistance := by
  have h := star_update_reset_invariant (Star.mk 3 4 500 3 4 (3/4))
    1 (1/60) ⟨0, 0, 0⟩
    (by norm_num [Star.minDistance]) (by norm_num [Star.maxDistance])
    (by norm_num) (by norm_num) (by norm_num)
  exact ⟨h.2.1, h.2.2⟩

/-- Counterexample to C2 as stated: the claim quantifies over *every*
`deltaTime`, but updating a live star at `z = maxDistance = 1000` with
`speedScale = 1` and `deltaTime = -1` moves `z` to `1060 > maxDistance`,
violating the claimed post-update bound `z ≤ maxDistance`. -/
theorem star_update_escapes_above_max :
    ¬ (((Star.mk 0 0 1000 0 0 1).update 1 (-1) ⟨0, 0, 0⟩).z
        ≤ Star.maxDistance) := by
  norm_num [Star.update, Star.reset, Star.minDistance, Star.maxDistance]

/-- A fixed stream of random draws, used to instantiate witnesses. -/
def zeroDraws : ℕ → RandDraws := fun _ => ⟨0, 0, 0⟩

/-- **C3** — Star-count clamping: from any state satisfying the
collection invariant (`stars.length = starCount`, count nonnegative),
`setStarCount n` stores exactly `clamp(n, 1, 5000)` (`Math.floor` is the
identity on integer inputs) and leaves the collection's length equal to
the stored count (growing by appended fresh stars or truncating). -/
theorem setStarCount_clamps_and_resizes (sf : StarField) (n : ℤ)
    (ρ : ℕ → RandDraws)
    (hc : 0 ≤ sf.starCount) (hlen : sf.stars.length = sf.starCount.toNat) :
    (sf.setStarCount n ρ).starCount = max 1 (min 5000 n)
    ∧ (sf.setStarCount n ρ).stars.length = (sf.setStarCount n ρ).starCount.toNat := by
  unfold StarField.setStarCount
  by_cases heq : max 1 (min 5000 n) = sf.starCount
  · rw [if_pos heq]
    exact ⟨heq.symm, hlen⟩
  · rw [if_neg heq]
    by_cases hgt : max 1 (min 5000 n) > sf.starCount
    · rw [if_pos hgt]
      refine ⟨rfl, ?_⟩
      simp only [List.length_append, List.length_map, List.length_range, hlen]
      omega
    · rw [if_neg hgt]
      refine ⟨rfl, ?_⟩
      simp only [List.length_take, hlen]
      omega

/-- Witness for C3: from a field constructed with 2 stars, the negative
input `-5` clamps to count 1 with collection length 1, and the oversized
input `10000` clamps to count 5000. -/
theorem setStarCount_clamps_witness :
    ((mkStarField 2 zeroDraws).setStarCount (-5) zeroDraws).starCount = 1
    ∧ ((mkStarField 2 zeroDraws).setStarCount (-5) zeroDraws).stars.length = 1
    ∧ ((mkStarField 2 zeroDraws).setStarCount 10000 zeroDraws).starCount = 5000 := by
  have hlen : (mkStarField 2 zeroDraws).stars.length
      = (mkStarField 2 zeroDraws).starCount.toNat := by
    simp [mkStarField]
  have h1 := setStarCount_clamps_and_resizes (mkStarField 2 zeroDraws) (-5)
    zeroDraws (by norm_num [mkStarField]) hlen
  have h2 := setStarCount_clamps_and_resizes (mkStarField 2 zeroDraws) 10000
    zeroDraws (by norm_num [mkStarField]) hlen
  refine ⟨?_, ?_, ?_⟩
  · rw [h1.1]; norm_num
  · rw [h1.2, h1.1]; norm_num
  · rw [h2.1]; norm_num

/-- **C10** — Constructor count is unclamped: a `StarField` constructed
with any nonnegative `starCount = n` creates exactly `n` particles and
`getStarCount()` returns `n`, with no `[1, 5000]` clamping (witnessed
below at the out-of-range inputs 0 and 6000). -/
theorem constructor_count_unclamped (n : ℤ) (ρ : ℕ → RandDraws) (hn : 0 ≤ n) :
    (mkStarField n ρ).getStarCount = n
    ∧ (mkStarField n ρ).stars.length = n.toNat := by
  refine ⟨rfl, ?_⟩
  simp [mkStarField]

/-- Witness for C10 at the out-of-range counts 0 and 6000: both are
stored verbatim, and 6000 particles are actually created. -/
theorem constructor_count_unclamped_witness :
    (mkStarField 0 zeroDraws).getStarCount = 0
    ∧ (mkStarField 6000 zeroDraws).getStarCount = 6000
    ∧ (mkStarField 6000 zeroDraws).stars.length = 6000 := by
  refine ⟨(constructor_count_unclamped 0 zeroDraws (by norm_num)).1,
    (constructor_count_unclamped 6000 zeroDraws (by norm_num)).1, ?_⟩
  rw [(constructor_count_unclamped 6000 zeroDraws (by norm_num)).2]
  rfl

/-- `tail` distributes over the append of a nonempty prefix. -/
theorem tail_append_of_ne_nil {α : Type} (xs ys : List α) (h : xs ≠ []) :
    (xs ++ ys).tail = xs.tail ++ ys := by
  cases xs with
  | nil => exact absurd rfl h
  | cons a l => rfl

/-- One `update` call keeps the FPS history at 60 entries or fewer. -/
theorem update_history_le (pm : PerformanceMonitor) (t : ℚ)
    (h : pm.fpsHistory.length ≤ 60) : (pm.update t).fpsHistory.length ≤ 60 := by
  unfold PerformanceMonitor.update
  by_cases h1 : pm.lastFrameTime > 0 <;>
    by_cases h2 : t - pm.lastFpsUpdate ≥ 1000 <;>
      simp only [h1, h2, if_true, if_false, ite_true, ite_false] <;>
      first
        | (split <;> simp_all [List.length_tail])
        | exact h

/-- **C9** — FPS history bound and eviction: after any sequence of
`PerformanceMonitor.update` calls starting from a history of at most 60
entries (the constructor starts empty), the history length stays `≤ 60`;
and a one-second snapshot pushed into a full 60-entry history evicts
exactly the oldest entry, preserving FIFO order (the new history is the
old one's tail with the new reading appended). -/
theorem fps_history_bounded_and_fifo :
    (∀ (pm : PerformanceMonitor) (ts : List ℚ), pm.fpsHistory.length ≤ 60 →
      (ts.foldl PerformanceMonitor.update pm).fpsHistory.length ≤ 60)
    ∧ (∀ (pm : PerformanceMonitor) (t : ℚ), pm.fpsHistory.length = 60 →
      t - pm.lastFpsUpdate ≥ 1000 →
      (pm.update t).fpsHistory = pm.fpsHistory.tail ++ [pm.frameCount + 1]) := by
  constructor
  · intro pm ts
    induction ts generalizing pm with
    | nil => intro h; exact h
    | cons t ts ih =>
      intro h
      exact ih (pm.update t) (update_history_le pm t h)
  · intro pm t hlen ht
    have hne : pm.fpsHistory ≠ [] := by
      intro hcontra
      rw [hcontra] at hlen
      simp at hlen
    unfold PerformanceMonitor.update
    by_cases h1 : pm.lastFrameTime > 0 <;>
      simp only [h1, if_true, if_false, ite_true, ite_false, ht, ge_iff_le] <;>
      rw [if_pos (by simp [hlen] :
        (pm.fpsHistory ++ [pm.frameCount + 1]).length > 60)] <;>
      exact tail_append_of_ne_nil _ _ hne

/-- A monitor one tick short of its 61st frame with a full 60-entry
history, used to witness the FIFO eviction. -/
def fullHistoryMonitor : PerformanceMonitor :=
  { frameCount := 7, fps := 0, lastFpsUpdate := 0,
    fpsHistory := List.replicate 60 5, lastFrameTime := 0, frameTime := 0 }

/-- Witness for C9: three updates from the fresh monitor keep the
history within 60 entries, and an update on a full history of sixty 5s
drops the oldest 5 and appends the new snapshot 8. -/
theorem fps_history_witness :
    (([1000, 2000, 3000] : List ℚ).foldl PerformanceMonitor.update
        mkPerformanceMonitor).fpsHistory.length ≤ 60
    ∧ (fullHistoryMonitor.update 1000).fpsHistory
        = List.replicate 59 5 ++ [8] := by
  constructor
  · exact fps_history_bounded_and_fifo.1 mkPerformanceMonitor [1000, 2000, 3000]
      (by simp [mkPerformanceMonitor])
  · have h := fps_history_bounded_and_fifo.2 fullHistoryMonitor 1000
      (by simp [fullHistoryMonitor]) (by norm_num [fullHistoryMonitor])
    rw [h]
    simp [fullHistoryMonitor]

/-- `setStarCount` always stores the clamped count. -/
theorem setStarCount_count (sf : StarField) (n : ℤ) (ρ : ℕ → RandDraws) :
    (sf.setStarCount n ρ).starCount = max 1 (min 5000 n) := by
  unfold StarField.setStarCount
  by_cases heq : max 1 (min 5000 n) = sf.starCount
  · rw [if_pos heq, heq]
  · rw [if_neg heq]
    by_cases hgt : max 1 (min 5000 n) > sf.starCount
    · rw [if_pos hgt]
    · rw [if_neg hgt]

/-- `setStarCount` only touches `starCount` and `stars`: the effect
toggles, frame-skip state, clocks and original count are preserved. -/
theorem setStarCount_preserves (sf : StarField) (n : ℤ) (ρ : ℕ → RandDraws) :
    (sf.setStarCount n ρ).enableGlow = sf.enableGlow
    ∧ (sf.setStarCount n ρ).enableTrails = sf.enableTrails
    ∧ (sf.setStarCount n ρ).skipFrames = sf.skipFrames
    ∧ (sf.setStarCount n ρ).lastOptimization = sf.lastOptimization
    ∧ (sf.setStarCount n ρ).lastRecovery = sf.lastRecovery
    ∧ (sf.setStarCount n ρ).recoveryDelay = sf.recoveryDelay
    ∧ (sf.setStarCount n ρ).minStarCount = sf.minStarCount
    ∧ (sf.setStarCount n ρ).originalStarCount = sf.originalStarCount := by
  unfold StarField.setStarCount
  by_cases heq : max 1 (min 5000 n) = sf.starCount
  · rw [if_pos heq]
    exact ⟨rfl, rfl, rfl, rfl, rfl, rfl, rfl, rfl⟩
  · rw [if_neg heq]
    by_cases hgt : max 1 (min 5000 n) > sf.starCount
    · rw [if_pos hgt]
      exact ⟨rfl, rfl, rfl, rfl, rfl, rfl, rfl, rfl⟩
    · rw [if_neg hgt]
      exact ⟨rfl, rfl, rfl, rfl, rfl, rfl, rfl, rfl⟩

/-- **C4 (amended)** — Low-performance response: when the notification
fires, at least 2 seconds have passed since the last optimization, *and
the current count exceeds the 100-star floor*, the count shrinks by
`max(floor(count·0.25), 1)` but never below 100; when the reported FPS
is additionally below 20, glow and trails are disabled and
every-other-frame skipping begins (`skipFrames = 1`).  A synthetic
history of thirty consecutive 15-FPS readings makes
`checkPerformanceThresholds` fire the low notification with `fps = 15`.
(The claim as stated, without the count-above-100 qualifier, fails at a
count of 50: see `low_performance_below_floor_unchanged`.) -/
theorem low_performance_response :
    (∀ (sf : StarField) (fps now : ℚ) (ρ : ℕ → RandDraws),
      now - sf.lastOptimization ≥ 2000 →
      sf.minStarCount = 100 →
      100 < sf.starCount → sf.starCount ≤ 5000 →
      (sf.handleLowPerformance fps now ρ).starCount
          = max 100 (sf.starCount - max ⌊(sf.starCount : ℚ) * (1/4)⌋ 1)
      ∧ 100 ≤ (sf.handleLowPerformance fps now ρ).starCount
      ∧ (fps < 20 →
          (sf.handleLowPerformance fps now ρ).enableGlow = false
          ∧ (sf.handleLowPerformance fps now ρ).enableTrails = false
          ∧ (sf.handleLowPerformance fps now ρ).skipFrames = 1))
    ∧ (∀ pm : PerformanceMonitor, pm.fpsHistory = List.replicate 30 15 →
        pm.checkPerformanceThresholds = PerfEvent.low 15 pm.frameTime) := by
  constructor
  · intro sf fps now ρ hrate hmin hcount hub
    have hrate' : ¬ (now - sf.lastOptimization < 2000) := not_lt.mpr hrate
    have hcount2 : sf.minStarCount < sf.starCount := by
      rw [hmin]
      exact hcount
    have hA : (sf.handleLowPerformance fps now ρ).starCount
        = max 100 (sf.starCount - max ⌊(sf.starCount : ℚ) * (1/4)⌋ 1) := by
      by_cases hfps : fps < 20 <;>
        simp only [StarField.handleLowPerformance, StarField.getStarCount, hrate',
          hcount2, hfps, if_true, if_false, ite_true, ite_false] <;>
        rw [setStarCount_count, hmin] <;>
        generalize ⌊(sf.starCount : ℚ) * (1/4)⌋ = F <;>
        omega
    refine ⟨hA, ?_, ?_⟩
    · rw [hA]
      exact le_max_left _ _
    · intro hfps
      refine ⟨?_, ?_, ?_⟩ <;>
        simp only [StarField.handleLowPerformance, StarField.getStarCount, hrate',
          hcount2, hfps, if_true, if_false, ite_true, ite_false]
  · intro pm hhist
    unfold PerformanceMonitor.checkPerformanceThresholds
      PerformanceMonitor.getAverageFPS
    rw [hhist]
    norm_num [List.sum_replicate]

/-- Counterexample to C4 as stated: at a current count of 50 (reachable
via `setStarCount(50)`), the low-performance handler leaves the count at
50 — it neither shrinks it nor raises it to the claimed floor of 100, so
the claimed count `max(100, count - max(floor(count·0.25), 1)) = 100`
does not match. -/
theorem low_performance_below_floor_unchanged :
    ((mkStarField 50 zeroDraws).handleLowPerformance 15 2000 zeroDraws).starCount = 50
    ∧ ¬ (((mkStarField 50 zeroDraws).handleLowPerformance 15 2000 zeroDraws).starCount
        = max 100 ((mkStarField 50 zeroDraws).starCount
            - max ⌊((mkStarField 50 zeroDraws).starCount : ℚ) * (1/4)⌋ 1)) := by
  have h : ((mkStarField 50 zeroDraws).handleLowPerformance 15 2000 zeroDraws).starCount
      = 50 := by
    norm_num [StarField.handleLowPerformance, StarField.getStarCount, mkStarField]
  refine ⟨h, ?_⟩
  rw [h]
  have h50 : (mkStarField 50 zeroDraws).starCount = 50 := rfl
  rw [h50]
  norm_num

/-- A monitor whose history holds thirty consecutive 15-FPS readings. -/
def lowFpsMonitor : PerformanceMonitor :=
  { frameCount := 0, fps := 15, lastFpsUpdate := 0,
    fpsHistory := List.replicate 30 15, lastFrameTime := 0, frameTime := 16 }

/-- Witness for C4 — the degraded-performance scenario: the thirty-15s
history fires the low notification, and from count 1000 (2 seconds after
the last optimization, reported FPS 15) the count becomes 750 with glow
and trails disabled and frame-skipping on. -/
theorem low_performance_response_witness :
    lowFpsMonitor.checkPerformanceThresholds = PerfEvent.low 15 16
    ∧ ((mkStarField 1000 zeroDraws).handleLowPerformance 15 2000 zeroDraws).starCount
        = 750
    ∧ ((mkStarField 1000 zeroDraws).handleLowPerformance 15 2000 zeroDraws).enableGlow
        = false
    ∧ ((mkStarField 1000 zeroDraws).handleLowPerformance 15 2000 zeroDraws).enableTrails
        = false
    ∧ ((mkStarField 1000 zeroDraws).handleLowPerformance 15 2000 zeroDraws).skipFrames
        = 1 := by
  have hmon := low_performance_response.2 lowFpsMonitor rfl
  have h := low_performance_response.1 (mkStarField 1000 zeroDraws) 15 2000 zeroDraws
    (by norm_num [mkStarField]) rfl (by norm_num [mkStarField])
    (by norm_num [mkStarField])
  have hflags := h.2.2 (by norm_num)
  refine ⟨hmon, ?_, hflags.1, hflags.2.1, hflags.2.2⟩
  rw [h.1]
  have : (mkStarField 1000 zeroDraws).starCount = 1000 := rfl
  rw [this]
  norm_num

/-- **C5** — Recovery response: when the good-performance notification
fires, the recovery delay has elapsed, the current count is below the
original user-requested count and the reported FPS exceeds 50 (state
well-formed: count at least 1, original at most 5000), the count grows by
`min(floor(originalCount·0.1), originalCount − currentCount)` and never
exceeds the original count; when glow had been auto-disabled, glow and
trails are re-enabled and frame-skipping stops.  A history of thirty
55-FPS readings makes `checkPerformanceThresholds` fire the good
notification with `fps = 55`. -/
theorem good_performance_recovery :
    (∀ (sf : StarField) (fps now : ℚ) (ρ : ℕ → RandDraws),
      now - sf.lastRecovery ≥ sf.recoveryDelay →
      sf.starCount < sf.originalStarCount → fps > 50 →
      1 ≤ sf.starCount → sf.originalStarCount ≤ 5000 →
      (sf.handleGoodPerformance fps now ρ).starCount
          = sf.starCount + min ⌊(sf.originalStarCount : ℚ) * (1/10)⌋
              (sf.originalStarCount - sf.starCount)
      ∧ (sf.handleGoodPerformance fps now ρ).starCount ≤ sf.originalStarCount
      ∧ (sf.enableGlow = false →
          (sf.handleGoodPerformance fps now ρ).enableGlow = true
          ∧ (sf.handleGoodPerformance fps now ρ).enableTrails = true
          ∧ (sf.handleGoodPerformance fps now ρ).skipFrames = 0))
    ∧ (∀ pm : PerformanceMonitor, pm.fpsHistory = List.replicate 30 55 →
        pm.checkPerformanceThresholds = PerfEvent.good 55 pm.frameTime) := by
  constructor
  · intro sf fps now ρ hrate hlt hfps h1 h5000
    have hrate' : ¬ (now - sf.lastRecovery < sf.recoveryDelay) := not_lt.mpr hrate
    have hfloor0 : 0 ≤ ⌊(sf.originalStarCount : ℚ) * (1/10)⌋ := by
      apply Int.floor_nonneg.mpr
      have h0 : (0 : ℚ) ≤ (sf.originalStarCount : ℚ) := by
        exact_mod_cast le_trans (le_trans zero_le_one h1) (le_of_lt hlt)
      linarith
    have hA : (sf.handleGoodPerformance fps now ρ).starCount
        = sf.starCount + min ⌊(sf.originalStarCount : ℚ) * (1/10)⌋
            (sf.originalStarCount - sf.starCount) := by
      unfold StarField.handleGoodPerformance StarField.getStarCount
      dsimp only
      rw [if_neg hrate', if_pos (⟨hlt, hfps⟩ : _ ∧ _)]
      by_cases hpos : 0 < min ⌊(sf.originalStarCount : ℚ) * (1/10)⌋
          (sf.originalStarCount - sf.starCount)
      · rw [if_pos hpos]
        dsimp only
        rw [apply_ite StarField.starCount]
        dsimp only
        rw [ite_self, setStarCount_count]
        omega
      · rw [if_neg hpos]
        dsimp only
        rw [apply_ite StarField.starCount]
        dsimp only
        rw [ite_self]
        omega
    refine ⟨hA, ?_, ?_⟩
    · rw [hA]
      omega
    · intro hglow
      have hgF : ∀ m : ℤ, (sf.setStarCount m ρ).enableGlow = false :=
        fun m => (setStarCount_preserves sf m ρ).1.trans hglow
      refine ⟨?_, ?_, ?_⟩ <;>
      · unfold StarField.handleGoodPerformance StarField.getStarCount
        dsimp only
        rw [if_neg hrate', if_pos (⟨hlt, hfps⟩ : _ ∧ _)]
        by_cases hpos : 0 < min ⌊(sf.originalStarCount : ℚ) * (1/10)⌋
            (sf.originalStarCount - sf.starCount)
        · rw [if_pos hpos, if_pos (hgF _)]
        · rw [if_neg hpos, if_pos hglow]
  · intro pm hhist
    unfold PerformanceMonitor.checkPerformanceThresholds
      PerformanceMonitor.getAverageFPS
    rw [hhist]
    norm_num [List.sum_replicate]

/-- A throttled field: constructed for 1000 stars, reduced to 750 with
glow and trails auto-disabled and frame-skipping on. -/
def throttledField : StarField :=
  { mkStarField 1000 zeroDraws with
      starCount := 750, enableGlow := false, enableTrails := false,
      skipFrames := 1 }

/-- A monitor whose history holds thirty consecutive 55-FPS readings. -/
def goodFpsMonitor : PerformanceMonitor :=
  { frameCount := 0, fps := 55, lastFpsUpdate := 0,
    fpsHistory := List.replicate 30 55, lastFrameTime := 0, frameTime := 16 }

/-- Witness for C5 — the recovery scenario: the thirty-55s history fires
the good notification, and from throttled count 750 (original 1000,
reported FPS 55, recovery delay of 5000 ms elapsed) the count becomes
850 and glow, trails and frame-skipping are restored. -/
theorem good_performance_recovery_witness :
    goodFpsMonitor.checkPerformanceThresholds = PerfEvent.good 55 16
    ∧ (throttledField.handleGoodPerformance 55 6000 zeroDraws).starCount = 850
    ∧ (throttledField.handleGoodPerformance 55 6000 zeroDraws).enableGlow = true
    ∧ (throttledField.handleGoodPerformance 55 6000 zeroDraws).enableTrails = true
    ∧ (throttledField.handleGoodPerformance 55 6000 zeroDraws).skipFrames = 0 := by
  have hmon := good_performance_recovery.2 goodFpsMonitor rfl
  have h := good_performance_recovery.1 throttledField 55 6000 zeroDraws
    (by norm_num [throttledField, mkStarField]) (by norm_num [throttledField, mkStarField])
    (by norm_num) (by norm_num [throttledField, mkStarField])
    (by norm_num [throttledField, mkStarField])
  have hflags := h.2.2 rfl
  refine ⟨hmon, ?_, hflags.1, hflags.2.1, hflags.2.2⟩
  rw [h.1]
  have hc : throttledField.starCount = 750 := rfl
  have ho : throttledField.originalStarCount = 1000 := rfl
  rw [hc, ho]
  norm_num

/-- The first wrap loop always exits at or below `π`. -/
theorem wrapHigh_le (y : ℝ) : wrapHigh y ≤ Real.pi := by
  induction y using wrapHigh.induct with
  | case1 y h ih =>
    rw [wrapHigh, if_pos h]
    exact ih
  | case2 y h =>
    rw [wrapHigh, if_neg h]
    exact le_of_not_lt h

/-- The second wrap loop always exits at or above `-π`. -/
theorem wrapLow_ge (y : ℝ) : -Real.pi ≤ wrapLow y := by
  induction y using wrapLow.induct with
  | case1 y h ih =>
    rw [wrapLow, if_pos h]
    exact ih
  | case2 y h =>
    rw [wrapLow, if_neg h]
    exact le_of_not_lt h

/-- The second wrap loop keeps a value that is at most `π` at most `π`. -/
theorem wrapLow_le (y : ℝ) (hy : y ≤ Real.pi) : wrapLow y ≤ Real.pi := by
  induction y using wrapLow.induct with
  | case1 y h ih =>
    rw [wrapLow, if_pos h]
    exact ih (by linarith [Real.pi_pos])
  | case2 y h =>
    rw [wrapLow, if_neg h]
    exact hy

/-- One `handleMouseMove` keeps the rotation targets bounded (closed
interval for the horizontal target) and does not touch `maxRotation`. -/
theorem handleMouseMove_bounds (ih : InputHandler) (mx my : ℝ)
    (hm : 0 ≤ ih.maxRotation)
    (hx1 : -ih.maxRotation ≤ ih.targetRotationX)
    (hx2 : ih.targetRotationX ≤ ih.maxRotation)
    (hy1 : -Real.pi ≤ ih.targetRotationY)
    (hy2 : ih.targetRotationY ≤ Real.pi) :
    (ih.handleMouseMove mx my).maxRotation = ih.maxRotation
    ∧ -ih.maxRotation ≤ (ih.handleMouseMove mx my).targetRotationX
    ∧ (ih.handleMouseMove mx my).targetRotationX ≤ ih.maxRotation
    ∧ -Real.pi ≤ (ih.handleMouseMove mx my).targetRotationY
    ∧ (ih.handleMouseMove mx my).targetRotationY ≤ Real.pi := by
  unfold InputHandler.handleMouseMove InputHandler.applyRotationBounds
  dsimp only
  by_cases hd : ih.isMouseDown = true
  · rw [if_pos hd]
    refine ⟨rfl, le_max_left _ _, ?_, wrapLow_ge _, wrapLow_le _ (wrapHigh_le _)⟩
    exact max_le (by linarith) (min_le_left _ _)
  · rw [if_neg hd]
    exact ⟨rfl, hx1, hx2, hy1, hy2⟩

/-- One event step keeps the rotation targets bounded and preserves
`maxRotation`. -/
theorem step_bounds (ih : InputHandler) (e : MouseEvt)
    (hm : 0 ≤ ih.maxRotation)
    (hx1 : -ih.maxRotation ≤ ih.targetRotationX)
    (hx2 : ih.targetRotationX ≤ ih.maxRotation)
    (hy1 : -Real.pi ≤ ih.targetRotationY)
    (hy2 : ih.targetRotationY ≤ Real.pi) :
    (ih.step e).maxRotation = ih.maxRotation
    ∧ -ih.maxRotation ≤ (ih.step e).targetRotationX
    ∧ (ih.step e).targetRotationX ≤ ih.maxRotation
    ∧ -Real.pi ≤ (ih.step e).targetRotationY
    ∧ (ih.step e).targetRotationY ≤ Real.pi := by
  cases e with
  | move mx my => exact handleMouseMove_bounds ih mx my hm hx1 hx2 hy1 hy2
  | down => exact ⟨rfl, hx1, hx2, hy1, hy2⟩
  | up => exact ⟨rfl, hx1, hx2, hy1, hy2⟩

/-- **C6 (amended)** — Rotation bounding: after any sequence of pointer
events processed by a freshly constructed handler (with a nonnegative
`maxRotation`, default `π/2`), the vertical target stays within
`[-maxRotation, maxRotation]` and the horizontal target stays within the
*closed* interval `[-π, π]`.  (The claim's half-open interval `(-π, π]`
fails: the wrap loops leave `-π` fixed, see
`rotation_wrap_hits_neg_pi`.) -/
theorem rotation_bounds (sens smooth maxRot : ℝ) (inv : Bool)
    (evts : List MouseEvt) (hm : 0 ≤ maxRot) :
    -maxRot ≤ ((mkInputHandler sens smooth maxRot inv).processEvents
        evts).targetRotationX
    ∧ ((mkInputHandler sens smooth maxRot inv).processEvents
        evts).targetRotationX ≤ maxRot
    ∧ -Real.pi ≤ ((mkInputHandler sens smooth maxRot inv).processEvents
        evts).targetRotationY
    ∧ ((mkInputHandler sens smooth maxRot inv).processEvents
        evts).targetRotationY ≤ Real.pi := by
  suffices h : ∀ (evts : List MouseEvt) (ih : InputHandler),
      ih.maxRotation = maxRot →
      -maxRot ≤ ih.targetRotationX → ih.targetRotationX ≤ maxRot →
      -Real.pi ≤ ih.targetRotationY → ih.targetRotationY ≤ Real.pi →
      (ih.processEvents evts).maxRotation = maxRot
      ∧ -maxRot ≤ (ih.processEvents evts).targetRotationX
      ∧ (ih.processEvents evts).targetRotationX ≤ maxRot
      ∧ -Real.pi ≤ (ih.processEvents evts).targetRotationY
      ∧ (ih.processEvents evts).targetRotationY ≤ Real.pi by
    have h0 := h evts (mkInputHandler sens smooth maxRot inv) rfl
      (by simpa [mkInputHandler] using neg_nonpos_of_nonneg hm)
      (by simpa [mkInputHandler] using hm)
      (by simp [mkInputHandler]; linarith [Real.pi_pos])
      (by simp [mkInputHandler]; linarith [Real.pi_pos])
    exact ⟨h0.2.1, h0.2.2.1, h0.2.2.2.1, h0.2.2.2.2⟩
  intro evts
  induction evts with
  | nil =>
    intro ih hmr hx1 hx2 hy1 hy2
    simp only [InputHandler.processEvents, List.foldl_nil]
    exact ⟨hmr, hx1, hx2, hy1, hy2⟩
  | cons e rest irec =>
    intro ih hmr hx1 hx2 hy1 hy2
    rw [← hmr] at hx1 hx2
    have hm' : 0 ≤ ih.maxRotation := by
      rw [hmr]
      exact hm
    have hs := step_bounds ih e hm' hx1 hx2 hy1 hy2
    have hmr' : (ih.step e).maxRotation = maxRot := hs.1.trans hmr
    have hx1' : -maxRot ≤ (ih.step e).targetRotationX := by
      rw [← hmr']
      exact hs.1 ▸ hs.2.1
    have hx2' : (ih.step e).targetRotationX ≤ maxRot := by
      rw [← hmr']
      exact hs.1 ▸ hs.2.2.1
    have hnext := irec (ih.step e) hmr' hx1' hx2' hs.2.2.2.1 hs.2.2.2.2
    simpa only [InputHandler.processEvents, List.foldl_cons] using hnext

/-- Witness for C6: after a button-down and one drag event on the
default configuration (`sensitivity = 0.003`, `maxRotation = π/2`), both
targets are within their bounds. -/
theorem rotation_bounds_witness :
    -(Real.pi/2) ≤ ((mkInputHandler (3/1000) (1/10) (Real.pi/2) false).processEvents
        [MouseEvt.down, MouseEvt.move 50 20]).targetRotationX
    ∧ ((mkInputHandler (3/1000) (1/10) (Real.pi/2) false).processEvents
        [MouseEvt.down, MouseEvt.move 50 20]).targetRotationX ≤ Real.pi/2
    ∧ -Real.pi ≤ ((mkInputHandler (3/1000) (1/10) (Real.pi/2) false).processEvents
        [MouseEvt.down, MouseEvt.move 50 20]).targetRotationY
    ∧ ((mkInputHandler (3/1000) (1/10) (Real.pi/2) false).processEvents
        [MouseEvt.down, MouseEvt.move 50 20]).targetRotationY ≤ Real.pi :=
  rotation_bounds (3/1000) (1/10) (Real.pi/2) false
    [MouseEvt.down, MouseEvt.move 50 20] (by positivity)

/-- Counterexample to C6 as stated: a single drag whose scaled delta is
exactly `-π` (raw delta `-1000π/3` at the default sensitivity `0.003`)
drives the horizontal target to exactly `-π`, which the wrap loops leave
unchanged — so `targetRotationY` is *not* inside the claimed half-open
interval `(-π, π]`. -/
theorem rotation_wrap_hits_neg_pi :
    ((mkInputHandler (3/1000) (1/10) (Real.pi/2) false).processEvents
        [MouseEvt.down, MouseEvt.move (-1000 * Real.pi / 3) 0]).targetRotationY
      = -Real.pi
    ∧ ¬ (-Real.pi <
        ((mkInputHandler (3/1000) (1/10) (Real.pi/2) false).processEvents
          [MouseEvt.down, MouseEvt.move (-1000 * Real.pi / 3) 0]).targetRotationY) := by
  have hwrapHigh : wrapHigh (-Real.pi) = -Real.pi := by
    rw [wrapHigh, if_neg (by linarith [Real.pi_pos] : ¬ (-Real.pi > Real.pi))]
  have hwrapLow : wrapLow (-Real.pi) = -Real.pi := by
    rw [wrapLow, if_neg (lt_irrefl _)]
  have key : ((mkInputHandler (3/1000) (1/10) (Real.pi/2) false).processEvents
      [MouseEvt.down, MouseEvt.move (-1000 * Real.pi / 3) 0]).targetRotationY
      = -Real.pi := by
    unfold InputHandler.processEvents
    simp only [List.foldl_cons, List.foldl_nil]
    unfold InputHandler.step InputHandler.handleMouseMove
      InputHandler.applyRotationBounds mkInputHandler
    dsimp only
    rw [if_pos rfl]
    dsimp only
    rw [show (0 : ℝ) + (-1000 * Real.pi / 3 - 0) * (3 / 1000) = -Real.pi by ring]
    rw [hwrapHigh, hwrapLow]
  refine ⟨key, ?_⟩
  rw [key]
  exact lt_irrefl _

/-- **C7 (amended)** — Invalid configuration input handling: the
ConfigPanel validators clamp out-of-range numeric star counts into
`[100, 5000]` and speeds into `[0.1, 5.0]` and return the prior stored
value on `NaN`; the StarField-level `setSpeed` clamps out-of-range
numeric inputs; but a `NaN` reaching `StarField.setSpeed` directly is
*stored* (`Math.max`/`Math.min` propagate `NaN`), so "state unchanged on
invalid input" holds only at the ConfigPanel layer — see
`setSpeed_nan_stored`.  (All setters are total functions: no error is
ever raised.) -/
theorem config_input_handling :
    (∀ cur : ℚ, validateStarCount cur Option.none = cur)
    ∧ (∀ cur : ℚ, validateSpeed cur Option.none = cur)
    ∧ (∀ (cur c : ℚ), 5000 < c → validateStarCount cur (some c) = 5000)
    ∧ (∀ (cur c : ℚ), c < 100 → validateStarCount cur (some c) = 100)
    ∧ (∀ (cur c : ℚ), 5 < c → validateSpeed cur (some c) = 5)
    ∧ (∀ (cur c : ℚ), c < 1/10 → validateSpeed cur (some c) = 1/10)
    ∧ (∀ (sf : StarField) (s : ℚ), (sf.setSpeed s).speed = max (1/10) (min 5 s))
    ∧ (∀ s : ℚ, starFieldSetSpeedJS (some s) = some (max (1/10) (min 5 s)))
    ∧ starFieldSetSpeedJS Option.none = Option.none := by
  refine ⟨fun cur => rfl, fun cur => rfl, ?_, ?_, ?_, ?_, fun sf s => rfl,
    fun s => rfl, rfl⟩
  · intro cur c hc
    unfold validateStarCount
    dsimp only
    have h1 : (5000 : ℚ) ≤ (⌊c⌋ : ℚ) := by
      exact_mod_cast Int.le_floor.mpr (le_of_lt hc)
    rw [min_eq_left h1, max_eq_right (by norm_num : (100 : ℚ) ≤ 5000)]
  · intro cur c hc
    unfold validateStarCount
    dsimp only
    have h1 : (⌊c⌋ : ℚ) ≤ c := Int.floor_le c
    rw [min_eq_right (by linarith), max_eq_left (by linarith)]
  · intro cur c hc
    unfold validateSpeed jsToFixed1
    dsimp only
    have h1 : (50 : ℚ) ≤ (⌊c * 10 + 1/2⌋ : ℚ) := by
      exact_mod_cast Int.le_floor.mpr (by linarith : (50 : ℚ) ≤ c * 10 + 1/2)
    rw [min_eq_left (by linarith), max_eq_right (by norm_num : (1/10 : ℚ) ≤ 5)]
  · intro cur c hc
    unfold validateSpeed jsToFixed1
    dsimp only
    have h1 : (⌊c * 10 + 1/2⌋ : ℚ) ≤ c * 10 + 1/2 := Int.floor_le _
    have h2 : (⌊c * 10 + 1/2⌋ : ℚ) ≤ 1 := by
      have hle : ⌊c * 10 + 1/2⌋ ≤ ⌊(3/2 : ℚ)⌋ :=
        Int.floor_le_floor (by linarith)
      have h32 : ⌊(3/2 : ℚ)⌋ = 1 := by norm_num
      exact_mod_cast h32 ▸ hle
    rw [min_eq_right (by linarith), max_eq_left (by linarith)]

/-- Witness for C7: `NaN` into the panel's star-count validator keeps
the prior 1000; `10000` clamps to 5000 and `7.5` clamps the speed to 5;
`StarField.setSpeed(99)` stores the clamped 5. -/
theorem config_input_handling_witness :
    validateStarCount 1000 Option.none = 1000
    ∧ validateStarCount 1000 (some 10000) = 5000
    ∧ validateSpeed 1 (some (15/2)) = 5
    ∧ ((mkStarField 1 zeroDraws).setSpeed 99).speed = 5 := by
  refine ⟨config_input_handling.1 1000,
    config_input_handling.2.2.1 1000 10000 (by norm_num),
    config_input_handling.2.2.2.2.1 1 (15/2) (by norm_num), ?_⟩
  rw [config_input_handling.2.2.2.2.2.2.1 (mkStarField 1 zeroDraws) 99]
  norm_num

/-- Counterexample to C7 as stated: the claim covers "every
configuration setter", but `StarField.setSpeed(NaN)` computes
`Math.max(0.1, Math.min(5.0, NaN)) = NaN` and stores it — from a prior
stored speed of `1.0`, the stored value after the call is `NaN`, not the
prior value. -/
theorem setSpeed_nan_stored :
    starFieldSetSpeedJS Option.none = Option.none
    ∧ ¬ (starFieldSetSpeedJS Option.none = some 1) := by
  constructor
  · rfl
  · intro hcontra
    simp [starFieldSetSpeedJS, jsMin, jsMax] at hcontra

/-- **C8** — Color-scheme transition termination: starting a transition
via `setColorScheme` from a different scheme with no transition active
(duration 1000 ms) and then updating at any time past
`startTime + duration` clears the transition (`isTransitioning = false`,
`fromScheme`/`toScheme` nulled), the active scheme is the destination,
and the computed star color equals that of a fresh non-transitioning
renderer on the destination scheme (no blending).  While a transition is
active, `setColorScheme` never replaces the record (at most one
transition), and the updated progress is monotone in time within
`[0, 1]`. -/
theorem color_transition_termination :
    (∀ (r : Renderer) (scheme : SchemeName) (now t : ℝ) (star : Star) (b : ℝ),
      scheme ≠ r.colorScheme →
      r.colorTransition.isTransitioning = false →
      r.colorTransition.duration = 1000 →
      now + 1000 ≤ t →
      ((r.setColorScheme scheme true now).updateColorTransition
          t).colorTransition.isTransitioning = false
      ∧ ((r.setColorScheme scheme true now).updateColorTransition
          t).colorTransition.fromScheme = Option.none
      ∧ ((r.setColorScheme scheme true now).updateColorTransition
          t).colorTransition.toScheme = Option.none
      ∧ ((r.setColorScheme scheme true now).updateColorTransition
          t).colorScheme = scheme
      ∧ (((r.setColorScheme scheme true now).updateColorTransition
            t).getStarColor star b t).2
          = (({ colorScheme := scheme,
                colorTransition := mkRenderer.colorTransition } : Renderer).getStarColor
              star b t).2)
    ∧ (∀ (r : Renderer) (scheme : SchemeName) (smooth : Bool) (now : ℝ),
        r.colorTransition.isTransitioning = true →
        (r.setColorScheme scheme smooth now).colorTransition = r.colorTransition)
    ∧ (∀ (r : Renderer) (t1 t2 : ℝ),
        r.colorTransition.isTransitioning = true →
        r.colorTransition.startTime ≤ t1 → t1 ≤ t2 →
        0 < r.colorTransition.duration →
        0 ≤ (r.updateColorTransition t1).colorTransition.progress
        ∧ (r.updateColorTransition t1).colorTransition.progress
            ≤ (r.updateColorTransition t2).colorTransition.progress
        ∧ (r.updateColorTransition t2).colorTransition.progress ≤ 1) := by
  refine ⟨?_, ?_, ?_⟩
  · intro r scheme now t star b hneq htrans hdur ht
    have hsetEq : r.setColorScheme scheme true now
        = { colorScheme := scheme,
            colorTransition :=
              { isTransitioning := true, startTime := now, duration := 1000,
                fromScheme := some r.colorScheme, toScheme := some scheme,
                progress := 0 } } := by
      unfold Renderer.setColorScheme
      rw [if_neg hneq]
      dsimp only
      rw [if_pos ⟨rfl, htrans⟩, hdur]
    have hprog : min ((t - now) / 1000) 1 ≥ 1 := by
      rw [ge_iff_le, le_min_iff]
      refine ⟨?_, le_refl 1⟩
      rw [le_div_iff₀ (by norm_num : (0:ℝ) < 1000)]
      linarith
    have hupdEq : (r.setColorScheme scheme true now).updateColorTransition t
        = { colorScheme := scheme,
            colorTransition :=
              { isTransitioning := false, startTime := now, duration := 1000,
                fromScheme := Option.none, toScheme := Option.none,
                progress := min ((t - now) / 1000) 1 } } := by
      rw [hsetEq]
      unfold Renderer.updateColorTransition
      dsimp only
      rw [if_neg (by simp), if_pos hprog]
    rw [hupdEq]
    refine ⟨rfl, rfl, rfl, rfl, ?_⟩
    unfold Renderer.getStarColor Renderer.updateColorTransition mkRenderer
    dsimp only
    rw [if_pos rfl, if_pos rfl]
    simp
  · intro r scheme smooth now htrans
    unfold Renderer.setColorScheme
    by_cases heq : scheme = r.colorScheme
    · rw [if_pos heq]
    · rw [if_neg heq]
      dsimp only
      rw [if_neg (by simp [htrans])]
  · intro r t1 t2 htrans h1 h12 hd
    have hcond : ¬ (r.colorTransition.isTransitioning = false) := by
      simp [htrans]
    have hval : ∀ t : ℝ,
        (r.updateColorTransition t).colorTransition.progress
          = min ((t - r.colorTransition.startTime) / r.colorTransition.duration) 1 := by
      intro t
      unfold Renderer.updateColorTransition
      rw [if_neg hcond]
      dsimp only
      rw [apply_ite (fun x : Renderer => x.colorTransition.progress)]
      dsimp only
      rw [ite_self]
    rw [hval t1, hval t2]
    refine ⟨le_min ?_ zero_le_one, min_le_min ?_ (le_refl 1), min_le_right _ _⟩
    · exact div_nonneg (by linarith) (le_of_lt hd)
    · exact div_le_div_of_nonneg_right (by linarith) hd.le

/-- Witness for C8: from the freshly constructed renderer (scheme
`white`, no transition), switch to `cool` at time 0 and update at time
1500: the transition is cleared, the scheme is `cool`, and the star
color matches a fresh renderer already on `cool`. -/
theorem color_transition_termination_witness :
    ((mkRenderer.setColorScheme SchemeName.cool true 0).updateColorTransition
        1500).colorTransition.isTransitioning = false
    ∧ ((mkRenderer.setColorScheme SchemeName.cool true 0).updateColorTransition
        1500).colorTransition.fromScheme = Option.none
    ∧ ((mkRenderer.setColorScheme SchemeName.cool true 0).updateColorTransition
        1500).colorScheme = SchemeName.cool
    ∧ (((mkRenderer.setColorScheme SchemeName.cool true 0).updateColorTransition
          1500).getStarColor (Star.mk 1 2 500 1 2 1) (1/2) 1500).2
        = (({ colorScheme := SchemeName.cool,
              colorTransition := mkRenderer.colorTransition } : Renderer).getStarColor
            (Star.mk 1 2 500 1 2 1) (1/2) 1500).2 := by
  have h := color_transition_termination.1 mkRenderer SchemeName.cool 0 1500
    (Star.mk 1 2 500 1 2 1) (1/2) (by decide) rfl rfl (by norm_num)
  exact ⟨h.1, h.2.1, h.2.2.2.1, h.2.2.2.2⟩

end StarrySky
